import Mathlib

/-!
# UDP endpoint establishment and DSCP marking (tftp, `os_linux.go`, `os_darwin.go`, `os_windows.go`)

A shallow embedding of the three platform variants of `getUDPConn`, `setDSCPOnConn` and
`unsetDSCPValue`.

* The operating system and the Go standard library are an explicit environment `OS`: every
  call the code makes into them (`net.ListenUDP`, `net.DialUDP`, `SyscallConn`, `Control`,
  `syscall.Getsockname`, `syscall.SetsockoptInt`, the five QoS wrappers, the address-text
  helpers of package `net`) is a field of `OS` giving the result of the call from its arguments.
* Every such call, and every `log.Printf`, is recorded as an `Event`; each function returns the
  list of events it emitted, in program order.
* Go `error` values are `Option GoError` (`none` is `nil`), Go `int` is `Int` with explicit
  64-bit wrap-around where arithmetic is done, `uintptr`/`windows.Handle`/`uint32` are `Nat`.
* Pointer parameters (`localAddr`, `remoteAddr`, `connected`) are taken as non-nil and passed
  by value; the pointer fields `cc.conn` and `cc.osconn` are `Option`s, `none` being `nil`.
-/

namespace Tftp

/-! ## Go values -/

/-- Go `error` values that occur in the three files: errors coming from the operating system or
the standard library, `fmt.Errorf` with a fixed text, and `fmt.Errorf` putting a non-nil error
behind a context text. -/
inductive GoError where
  | errno (code : Nat)
  | text (msg : String)
  | wrapped (ctx : String) (inner : GoError)
  deriving DecidableEq, Repr

/-- Go `fmt.Errorf(ctx + "%s", err)` for an `err` that may be nil. -/
def errorf (ctx : String) : Option GoError → GoError
  | some e => .wrapped ctx e
  | none => .text (ctx ++ "%!s(<nil>)")

/-- Go assignment `x = v` to a variable that already holds a value: the old content is
dropped. -/
def assign {α : Type} (_old new : α) : α := new

/-- The value `syscall.EINVAL`. -/
def EINVAL : GoError := .errno 22

/-- Two's-complement wrap-around of a mathematical integer into the 64-bit Go `int`. -/
def wrapInt (x : Int) : Int := (x + 2 ^ 63) % 2 ^ 64 - 2 ^ 63

/-- Go `x << k` on `int`. -/
def shl (x : Int) (k : Nat) : Int := wrapInt (x * 2 ^ k)

/-- Go `uint32(x)` for an `int` x. -/
def toUint32 (x : Int) : Nat := (x % 2 ^ 32).toNat

/-- Go `uint16(x)` for an `int` x. -/
def toUint16 (x : Int) : Nat := (x % 2 ^ 16).toNat

/-- A `net.UDPAddr`; the `IP` field is the byte slice of `net.IP`. -/
structure UDPAddr where
  IP : List Nat
  Port : Int
  Zone : String
  deriving DecidableEq, Repr

/-- The method `net.IP.To4` of the Go standard library: a 4-byte slice is returned as it is, a
16-byte IPv4-mapped slice yields its last four bytes, anything else yields `nil`. -/
def To4 (ip : List Nat) : Option (List Nat) :=
  if ip.length = 4 then some ip
  else if ip.length = 16 ∧ (ip.take 10).all (fun b => b == 0) ∧ ip.get? 10 = some 255
      ∧ ip.get? 11 = some 255 then some (ip.drop 12)
  else none

/-- The method `net.IP.To16` of the Go standard library: a 4-byte slice is turned into its
IPv4-mapped 16-byte form, a 16-byte slice is returned as it is, anything else yields `nil`. -/
def To16 (ip : List Nat) : Option (List Nat) :=
  if ip.length = 4 then some ([0, 0, 0, 0, 0, 0, 0, 0, 0, 0, 255, 255] ++ ip)
  else if ip.length = 16 then some ip
  else none

/-- A `*net.UDPConn` that socket creation returned; `fd` is the descriptor that
`RawConn.Control` hands to its callback. -/
structure UDPConn where
  fd : Nat
  deriving DecidableEq, Repr

/-- The dynamic type of a `syscall.Sockaddr`. -/
inductive Sockaddr where
  | Inet4 (port : Nat) (addr : List Nat)
  | Inet6 (port : Nat) (zoneId : Nat) (addr : List Nat)
  | Unix (name : String)
  deriving DecidableEq, Repr

/-- The `level` argument of `syscall.SetsockoptInt`. -/
inductive SockLevel where
  | IPPROTO_IP
  | IPPROTO_IPV6
  deriving DecidableEq, Repr

/-- The `opt` argument of `syscall.SetsockoptInt`. -/
inductive SockOpt where
  | IP_TOS
  | IPV6_TCLASS
  deriving DecidableEq, Repr

/-- The type `syscall.RawSockaddrInet4`; `Port` holds the two bytes in memory order. -/
structure RawSockaddrInet4 where
  Family : Nat
  Port : List Nat
  Addr : List Nat
  deriving DecidableEq, Repr

/-- The type `syscall.RawSockaddrInet6`; `Port` holds the two bytes in memory order. -/
structure RawSockaddrInet6 where
  Family : Nat
  Port : List Nat
  Addr : List Nat
  deriving DecidableEq, Repr

/-- What the pointer `sockAddrPtr` of the Windows marker points to. -/
inductive RawSockaddr where
  | inet4 (sa : RawSockaddrInet4)
  | inet6 (sa : RawSockaddrInet6)
  deriving DecidableEq, Repr

/-! ## Events -/

/-- The lines written with `log.Printf`. -/
inductive LogMsg where
  /-- Line `ListenUDP connection on %s with DSCP %d`. -/
  | listening (localAddr : UDPAddr) (dscp : Int)
  /-- Line `DialUDP connection on %s with DSCP %d`. -/
  | dialing (localAddr : UDPAddr) (dscp : Int)
  /-- Line `error while dialing UDP conn:%s`. -/
  | dialError (err : GoError)
  /-- Line `Failed to set DSCP on addr:%s - %s`. -/
  | failedDSCP (localAddr : UDPAddr) (err : GoError)
  deriving DecidableEq, Repr

/-- One call out of the repository's code, with the arguments it was given. -/
inductive Event where
  | log (m : LogMsg)
  | ListenUDP (network : String) (laddr : UDPAddr)
  | DialUDP (network : String) (laddr raddr : UDPAddr)
  | SyscallConn (conn : Option UDPConn)
  | Control (conn : UDPConn)
  | Getsockname (fd : Nat)
  | SetsockoptInt (fd : Nat) (level : SockLevel) (opt : SockOpt) (value : Int)
  | QoSCreateHandle (major minor : Nat)
  | QoSAddSocketToFlow (qosHandle socketHandle : Nat) (destAddr : Option RawSockaddr)
      (trafficType flags : Nat)
  | QoSSetFlow (qosHandle flowId operation size value flags : Nat)
  | QoSRemoveSocketFromFlow (qosHandle socketHandle flowId flags : Nat)
  | QoSCloseHandle (qosHandle : Nat)
  deriving DecidableEq, Repr

/-- The option-set system calls. -/
def Event.isSetsockopt : Event → Bool
  | .SetsockoptInt _ _ _ _ => true
  | _ => false

/-- The calls into the Windows QoS subsystem. -/
def Event.isQoS : Event → Bool
  | .QoSCreateHandle _ _ => true
  | .QoSAddSocketToFlow _ _ _ _ _ => true
  | .QoSSetFlow _ _ _ _ _ _ => true
  | .QoSRemoveSocketFromFlow _ _ _ _ => true
  | .QoSCloseHandle _ => true
  | _ => false

/-- The calls that only a marker (`setDSCPOnConn`) makes: raw-connection access, the
name query, the option-set calls and the QoS subsystem calls of marking. -/
def Event.isMarking : Event → Bool
  | .SyscallConn _ => true
  | .Control _ => true
  | .Getsockname _ => true
  | .SetsockoptInt _ _ _ _ => true
  | .QoSCreateHandle _ _ => true
  | .QoSAddSocketToFlow _ _ _ _ _ => true
  | .QoSSetFlow _ _ _ _ _ _ => true
  | _ => false

/-- The first call of every `setDSCPOnConn`: `cc.conn.SyscallConn()`. -/
def Event.isSyscallConn : Event → Bool
  | .SyscallConn _ => true
  | _ => false

/-- The socket-creation calls, reduced to the network name they were given. -/
def Event.network? : Event → Option String
  | .ListenUDP n _ => some n
  | .DialUDP n _ _ => some n
  | _ => none

/-- The value argument of an option-set call. -/
def Event.sockoptValue? : Event → Option Int
  | .SetsockoptInt _ _ _ v => some v
  | _ => none

/-! ## Environment -/

/-- Result of `winQoSCreateHandle`: the two return values and the content of the handle
variable it was given a pointer to, after the call. -/
structure CreateResult where
  ok : Bool
  err : Option GoError
  handle : Nat
  deriving DecidableEq, Repr

/-- Result of `winQoSAddSocketToFlow`: the two return values and the content of the flow
identifier it was given a pointer to, after the call. -/
structure AddResult where
  ok : Bool
  err : Option GoError
  flowId : Nat
  deriving DecidableEq, Repr

/-- The operating system and the Go standard library, as seen from the three files. For the
two QoS calls that write through a pointer, the last argument is the content of the pointed
variable before the call. `Control` gives the error with which `RawConn.Control` returns
without running its callback, `none` when it runs the callback and returns `nil`. -/
structure OS where
  ListenUDP : String → UDPAddr → Except GoError UDPConn
  DialUDP : String → UDPAddr → UDPAddr → Except GoError UDPConn
  SyscallConn : UDPConn → Option GoError
  Control : UDPConn → Option GoError
  Getsockname : Nat → Except GoError Sockaddr
  SetsockoptInt : Nat → SockLevel → SockOpt → Int → Option GoError
  winQoSCreateHandle : Nat → Nat → Nat → CreateResult
  winQoSAddSocketToFlow : Nat → Nat → Option RawSockaddr → Nat → Nat → Nat → AddResult
  winQoSSetFlow : Nat → Nat → Nat → Nat → Nat → Nat → Bool × Option GoError
  addrString : UDPAddr → String
  SplitHostPort : String → Except GoError (String × String)
  Atoi : String → Int
  ParseIP : String → Option (List Nat)

/-- The fields of `connConnection` that the three files use; `O` is the platform's
`osConn`. -/
structure connConnection (O : Type) where
  conn : Option UDPConn
  osconn : Option O
  deriving DecidableEq, Repr

/-- What a call of `getUDPConn` leaves behind: the returned error, the endpoint, the content of
`*connected`, and the events emitted. -/
structure Outcome (O : Type) where
  err : Option GoError
  cc : connConnection O
  connected : Bool
  events : List Event
  deriving DecidableEq, Repr

/-- The call `cc.conn.SyscallConn()`: on a nil connection the standard library returns
`syscall.EINVAL`; otherwise the environment decides, and the raw connection obtained is the
connection itself. -/
def SyscallConn (os : OS) : Option UDPConn → Except GoError UDPConn
  | none => .error EINVAL
  | some c =>
    match os.SyscallConn c with
    | some e => .error e
    | none => .ok c

/-! ## Linux (`os_linux.go`) -/

namespace Linux

/-- The empty `osConn` of `os_linux.go`. -/
structure osConn where
  deriving DecidableEq, Repr

/-- The callback that `setDSCPOnConn` passes to `rawConn.Control`: the value left in
`innerErr` and the events emitted. -/
def controlFn (os : OS) (fd : Nat) (dscp : Int) : Option GoError × List Event :=
  let tos := shl dscp 2
  match os.Getsockname fd with
  | .error e => (some e, [.Getsockname fd])
  | .ok (.Inet4 _ _) =>
    (os.SetsockoptInt fd .IPPROTO_IP .IP_TOS tos,
      [.Getsockname fd, .SetsockoptInt fd .IPPROTO_IP .IP_TOS tos])
  | .ok (.Inet6 _ _ _) =>
    let innerErr := os.SetsockoptInt fd .IPPROTO_IP .IP_TOS tos
    let innerErr := assign innerErr (os.SetsockoptInt fd .IPPROTO_IPV6 .IPV6_TCLASS tos)
    (innerErr,
      [.Getsockname fd, .SetsockoptInt fd .IPPROTO_IP .IP_TOS tos,
        .SetsockoptInt fd .IPPROTO_IPV6 .IPV6_TCLASS tos])
  | .ok _ => (some (.text "unsupported socket address type"), [.Getsockname fd])

/-- The method `setDSCPOnConn` of `os_linux.go`: the returned error and the events. -/
def setDSCPOnConn (os : OS) (cc : connConnection osConn) (dscp : Int) :
    Option GoError × List Event :=
  match SyscallConn os cc.conn with
  | .error e => (some (.wrapped "failed to get raw conn: " e), [.SyscallConn cc.conn])
  | .ok rawConn =>
    match os.Control rawConn with
    | some e => (some e, [.SyscallConn cc.conn, .Control rawConn])
    | none =>
      let r := controlFn os rawConn.fd dscp
      (r.1, [.SyscallConn cc.conn, .Control rawConn] ++ r.2)

/-- The method `getUDPConn` of `os_linux.go`. -/
def getUDPConn (os : OS) (cc : connConnection osConn) (connected : Bool)
    (localAddr _remoteAddr : UDPAddr) (dscp : Int) : Outcome osConn :=
  let ev0 : List Event := [.log (.listening localAddr dscp), .ListenUDP "udp" localAddr]
  match os.ListenUDP "udp" localAddr with
  | .error e => ⟨some e, cc, connected, ev0⟩
  | .ok conn =>
    let cc1 : connConnection osConn := { cc with conn := some conn }
    if dscp ≠ 0 then
      match setDSCPOnConn os cc1 dscp with
      | (some e, ev) => ⟨none, cc1, connected, ev0 ++ ev ++ [.log (.failedDSCP localAddr e)]⟩
      | (none, ev) => ⟨none, cc1, connected, ev0 ++ ev⟩
    else ⟨none, cc1, connected, ev0⟩

/-- The method `unsetDSCPValue` of `os_linux.go`. -/
def unsetDSCPValue (_cc : connConnection osConn) : Option GoError × List Event := (none, [])

end Linux

/-! ## Darwin (`os_darwin.go`) -/

namespace Darwin

/-- The empty `osConn` of `os_darwin.go`. -/
structure osConn where
  deriving DecidableEq, Repr

/-- The callback that `setDSCPOnConn` passes to `rawConn.Control`: the value left in
`innerErr` and the events emitted. -/
def controlFn (os : OS) (fd : Nat) (dscp : Int) : Option GoError × List Event :=
  let tos := shl dscp 2
  match os.Getsockname fd with
  | .error e => (some e, [.Getsockname fd])
  | .ok (.Inet4 _ _) =>
    (os.SetsockoptInt fd .IPPROTO_IP .IP_TOS tos,
      [.Getsockname fd, .SetsockoptInt fd .IPPROTO_IP .IP_TOS tos])
  | .ok (.Inet6 _ _ _) =>
    (os.SetsockoptInt fd .IPPROTO_IPV6 .IPV6_TCLASS tos,
      [.Getsockname fd, .SetsockoptInt fd .IPPROTO_IPV6 .IPV6_TCLASS tos])
  | .ok _ => (some (.text "unsupported socket address type"), [.Getsockname fd])

/-- The method `setDSCPOnConn` of `os_darwin.go`: the returned error and the events. -/
def setDSCPOnConn (os : OS) (cc : connConnection osConn) (dscp : Int) :
    Option GoError × List Event :=
  match SyscallConn os cc.conn with
  | .error e => (some (.wrapped "failed to get raw conn: " e), [.SyscallConn cc.conn])
  | .ok rawConn =>
    match os.Control rawConn with
    | some e => (some e, [.SyscallConn cc.conn, .Control rawConn])
    | none =>
      let r := controlFn os rawConn.fd dscp
      (r.1, [.SyscallConn cc.conn, .Control rawConn] ++ r.2)

/-- The method `getUDPConn` of `os_darwin.go`. -/
def getUDPConn (os : OS) (cc : connConnection osConn) (connected : Bool)
    (localAddr remoteAddr : UDPAddr) (dscp : Int) : Outcome osConn :=
  let ev0 : List Event := [.log (.listening localAddr dscp)]
  let created : Except GoError UDPConn × Event :=
    if (To4 remoteAddr.IP).isSome then
      (os.ListenUDP "udp4" localAddr, .ListenUDP "udp4" localAddr)
    else
      (os.ListenUDP "udp6" localAddr, .ListenUDP "udp6" localAddr)
  match created.1 with
  | .error e => ⟨some e, cc, connected, ev0 ++ [created.2]⟩
  | .ok conn =>
    let cc1 : connConnection osConn := { cc with conn := some conn }
    if dscp ≠ 0 then
      match setDSCPOnConn os cc1 dscp with
      | (some e, ev) =>
        ⟨none, cc1, connected, ev0 ++ [created.2] ++ ev ++ [.log (.failedDSCP localAddr e)]⟩
      | (none, ev) => ⟨none, cc1, connected, ev0 ++ [created.2] ++ ev⟩
    else ⟨none, cc1, connected, ev0 ++ [created.2]⟩

/-- The method `unsetDSCPValue` of `os_darwin.go`. -/
def unsetDSCPValue (_cc : connConnection osConn) : Option GoError × List Event := (none, [])

end Darwin

/-! ## Windows (`os_windows.go`) -/

namespace Windows

/-- The `osConn` of `os_windows.go`. -/
structure osConn where
  qosHandle : Nat
  socketHandle : Nat
  flowId : Nat
  deriving DecidableEq, Repr

/-- The constant `QOS_NON_ADAPTIVE_FLOW`. -/
def QOS_NON_ADAPTIVE_FLOW : Nat := 2

/-- The constant `QOSSetOutgoingDSCPValue`. -/
def QOSSetOutgoingDSCPValue : Nat := 2

/-- The constant `QOSTrafficTypeExcellentEffort` (third of the `iota` block). -/
def QOSTrafficTypeExcellentEffort : Nat := 2

/-- The constant `syscall.AF_INET` on Windows. -/
def AF_INET : Nat := 2

/-- The constant `syscall.AF_INET6` on Windows. -/
def AF_INET6 : Nat := 23

/-- The call `binary.BigEndian.PutUint16` on a two-byte field. -/
def putUint16 (v : Nat) : List Nat := [v / 256 % 256, v % 256]

/-- Go `copy(dst[:], src)` into a zeroed array of `n` bytes. -/
def copyInto (n : Nat) (src : List Nat) : List Nat :=
  src.take n ++ List.replicate (n - src.length) 0

/-- The function `getSockAddrIntet4`: the returned pointer (`none` is `nil`) and error. -/
def getSockAddrIntet4 (os : OS) (address : String) :
    Option RawSockaddrInet4 × Option GoError :=
  let sa : RawSockaddrInet4 := ⟨0, [0, 0], [0, 0, 0, 0]⟩
  match os.SplitHostPort address with
  | .error e => (none, some e)
  | .ok (host, portStr) =>
    let portInt := os.Atoi portStr
    match os.ParseIP host with
    | none => (none, some (.text "invalid IP"))
    | some ip =>
      match To4 ip with
      | some ip4 =>
        (some { sa with Family := AF_INET, Port := putUint16 (toUint16 portInt),
                        Addr := copyInto 4 ip4 }, none)
      | none => (some sa, some (.text "unknown IP family"))

/-- The function `getSockAddrIntet6`: the returned pointer (`none` is `nil`) and error. -/
def getSockAddrIntet6 (os : OS) (address : String) :
    Option RawSockaddrInet6 × Option GoError :=
  let sa : RawSockaddrInet6 := ⟨0, [0, 0], List.replicate 16 0⟩
  match os.SplitHostPort address with
  | .error e => (none, some e)
  | .ok (host, portStr) =>
    let portInt := os.Atoi portStr
    match os.ParseIP host with
    | none => (none, some (.text "invalid IP"))
    | some ip =>
      match To16 ip with
      | some ip6 =>
        (some { sa with Family := AF_INET6, Port := putUint16 (toUint16 portInt),
                        Addr := copyInto 16 ip6 }, none)
      | none => (some sa, some (.text "unknown IP family"))

/-- What a call of `setDSCPOnConn` leaves behind: the returned error, the extension record
behind `cc.osconn` and the events emitted. -/
structure Marked where
  err : Option GoError
  osconn : osConn
  events : List Event
  deriving DecidableEq, Repr

/-- The address-resolution step of `setDSCPOnConn`: the pointer `sockAddrPtr`, or the error
with which `setDSCPOnConn` returns. -/
def resolve (os : OS) (remoteAddr : UDPAddr) : Except GoError (Option RawSockaddr) :=
  if (To4 remoteAddr.IP).isSome then
    match getSockAddrIntet4 os (os.addrString remoteAddr) with
    | (_, some e) => .error e
    | (sockAddr, none) => .ok (sockAddr.map .inet4)
  else if (To16 remoteAddr.IP).isSome then
    match getSockAddrIntet6 os (os.addrString remoteAddr) with
    | (_, some e) => .error e
    | (sockAddr, none) => .ok (sockAddr.map .inet6)
  else .error (.text ("invalid IP protocol " ++ os.addrString remoteAddr))

/-- The callback that `setDSCPOnConn` passes to `rawConn.Control`: the value left in `operr`,
the extension record and the events emitted. -/
def controlFn (os : OS) (o : osConn) (remoteAddr : UDPAddr) (sockAddrPtr : Option RawSockaddr)
    (uint32dscp : Nat) (fd : Nat) : Marked :=
  let o1 : osConn := { o with socketHandle := fd }
  let r := os.winQoSAddSocketToFlow o1.qosHandle o1.socketHandle sockAddrPtr
    QOSTrafficTypeExcellentEffort QOS_NON_ADAPTIVE_FLOW o1.flowId
  let o2 : osConn := { o1 with flowId := r.flowId }
  let evAdd : Event := .QoSAddSocketToFlow o1.qosHandle o1.socketHandle sockAddrPtr
    QOSTrafficTypeExcellentEffort QOS_NON_ADAPTIVE_FLOW
  if !r.ok then
    ⟨some (errorf ("[Remote:" ++ os.addrString remoteAddr ++ "]Failed to add to the flow: ")
      r.err), o2, [evAdd]⟩
  else
    let s := os.winQoSSetFlow o2.qosHandle o2.flowId QOSSetOutgoingDSCPValue 4 uint32dscp 0
    let evSet : Event := .QoSSetFlow o2.qosHandle o2.flowId QOSSetOutgoingDSCPValue 4
      uint32dscp 0
    if !s.1 then
      ⟨some (errorf ("[Remote:" ++ os.addrString remoteAddr ++ "]Failed to set DSCP: ") s.2),
        o2, [evAdd, evSet]⟩
    else ⟨none, o2, [evAdd, evSet]⟩

/-- The method `setDSCPOnConn` of `os_windows.go`. The result is `none` when the code panics,
which it does on a nil `cc.osconn` once the raw connection has been obtained. -/
def setDSCPOnConn (os : OS) (cc : connConnection osConn) (remoteAddr : UDPAddr) (dscp : Int) :
    Option (Option GoError × connConnection osConn × List Event) :=
  let uint32dscp := toUint32 dscp
  match SyscallConn os cc.conn with
  | .error e =>
    some (some (.wrapped "failed to get raw connection: " e), cc, [.SyscallConn cc.conn])
  | .ok rawConn =>
    match cc.osconn with
    | none => none
    | some o =>
      let c := os.winQoSCreateHandle 1 0 o.qosHandle
      let o1 : osConn := { o with qosHandle := c.handle }
      let ev1 : List Event := [.SyscallConn cc.conn, .QoSCreateHandle 1 0]
      if !c.ok || c.err.isSome then
        some (some (errorf "critical error creating Qos handle:" c.err),
          { cc with osconn := some o1 }, ev1)
      else
        match resolve os remoteAddr with
        | .error e => some (some e, { cc with osconn := some o1 }, ev1)
        | .ok sockAddrPtr =>
          match os.Control rawConn with
          | some ctrlErr =>
            some (some (.wrapped "failed to apply QoS at callback:" ctrlErr),
              { cc with osconn := some o1 }, ev1 ++ [.Control rawConn])
          | none =>
            let m := controlFn os o1 remoteAddr sockAddrPtr uint32dscp rawConn.fd
            match m.err with
            | some operr =>
              some (some (.wrapped "failed to apply socket control: " operr),
                { cc with osconn := some m.osconn }, ev1 ++ [.Control rawConn] ++ m.events)
            | none =>
              some (none, { cc with osconn := some m.osconn },
                ev1 ++ [.Control rawConn] ++ m.events)

/-- The method `getUDPConn` of `os_windows.go`; `none` when the code panics. -/
def getUDPConn (os : OS) (cc : connConnection osConn) (connected : Bool)
    (localAddr remoteAddr : UDPAddr) (dscp : Int) : Option (Outcome osConn) :=
  let ev0 : List Event :=
    [.log (.dialing localAddr dscp), .DialUDP "udp" localAddr remoteAddr]
  match os.DialUDP "udp" localAddr remoteAddr with
  | .error e => some ⟨some e, cc, connected, ev0 ++ [.log (.dialError e)]⟩
  | .ok conn =>
    let cc1 : connConnection osConn := { conn := some conn, osconn := some ⟨0, 0, 0⟩ }
    if dscp ≠ 0 then
      match setDSCPOnConn os cc1 remoteAddr dscp with
      | none => none
      | some (some e, cc2, ev) =>
        some ⟨none, cc2, true, ev0 ++ ev ++ [.log (.failedDSCP localAddr e)]⟩
      | some (none, cc2, ev) => some ⟨none, cc2, true, ev0 ++ ev⟩
    else some ⟨none, cc1, true, ev0⟩

/-- The method `unsetDSCPValue` of `os_windows.go`: the returned error and the events. -/
def unsetDSCPValue (cc : connConnection osConn) : Option GoError × List Event :=
  match cc.osconn with
  | none => (none, [])
  | some o =>
    if o.qosHandle = 0 then (none, [])
    else
      (none, [.QoSRemoveSocketFromFlow o.qosHandle o.socketHandle o.flowId 0,
        .QoSCloseHandle o.qosHandle])

end Windows

/-! ## Concrete environments -/

/-- An environment in which every call succeeds: sockets get descriptor 3 and report an IPv4
name, the QoS subsystem hands out handle 77 and flow 5, and the remote address text is
`10.0.0.5:50000`. -/
def okOS : OS where
  ListenUDP := fun _ _ => .ok ⟨3⟩
  DialUDP := fun _ _ _ => .ok ⟨3⟩
  SyscallConn := fun _ => none
  Control := fun _ => none
  Getsockname := fun _ => .ok (.Inet4 6969 [0, 0, 0, 0])
  SetsockoptInt := fun _ _ _ _ => none
  winQoSCreateHandle := fun _ _ _ => ⟨true, none, 77⟩
  winQoSAddSocketToFlow := fun _ _ _ _ _ _ => ⟨true, none, 5⟩
  winQoSSetFlow := fun _ _ _ _ _ _ => (true, none)
  addrString := fun _ => "10.0.0.5:50000"
  SplitHostPort := fun _ => .ok ("10.0.0.5", "50000")
  Atoi := fun _ => 50000
  ParseIP := fun _ => some [0, 0, 0, 0, 0, 0, 0, 0, 0, 0, 255, 255, 10, 0, 0, 5]

/-- As `okOS`, with sockets reporting an IPv6 name. -/
def okOS6 : OS :=
  { okOS with Getsockname := fun _ => .ok (.Inet6 6969 0 (List.replicate 16 0)) }

/-- As `okOS6`, except that setting `IP_TOS` fails with `EINVAL`. -/
def tosFailOS6 : OS :=
  { okOS6 with
    SetsockoptInt := fun _ level _ _ =>
      match level with
      | .IPPROTO_IP => some EINVAL
      | .IPPROTO_IPV6 => none }

/-- As `okOS`, except that `net.ListenUDP` and `net.DialUDP` fail with `EINVAL`. -/
def noSocketOS : OS :=
  { okOS with ListenUDP := fun _ _ => .error EINVAL, DialUDP := fun _ _ _ => .error EINVAL }

/-- As `okOS`, except that adding the socket to a flow fails. -/
def addFailOS : OS :=
  { okOS with winQoSAddSocketToFlow := fun _ _ _ _ _ _ => ⟨false, some EINVAL, 0⟩ }

/-- As `okOS`, except that creating the QoS handle fails and stores nothing. -/
def createFailOS : OS :=
  { okOS with winQoSCreateHandle := fun _ _ cur => ⟨false, some EINVAL, cur⟩ }

/-- As `okOS`, except that setting the flow's DSCP value fails. -/
def setFailOS : OS :=
  { okOS with winQoSSetFlow := fun _ _ _ _ _ _ => (false, some EINVAL) }

/-- The local address `0.0.0.0:6969`. -/
def local6969 : UDPAddr := ⟨[0, 0, 0, 0], 6969, ""⟩

/-- The remote address `10.0.0.5:50000`. -/
def remote50000 : UDPAddr := ⟨[10, 0, 0, 5], 50000, ""⟩

/-- The remote address `[2001:db8::1]:50000`. -/
def remoteV6 : UDPAddr := ⟨[32, 1, 13, 184, 0, 0, 0, 0, 0, 0, 0, 0, 0, 0, 0, 1], 50000, ""⟩

/-- The native form of `10.0.0.5:50000`. -/
def rawRemote50000 : RawSockaddr :=
  .inet4 ⟨Windows.AF_INET, [195, 80], [10, 0, 0, 5]⟩

/-! ## Observations used in the statements -/

/-- The `error` half of the pair that `net.ListenUDP` or `net.DialUDP` returned. -/
def creationErr : Except GoError UDPConn → Option GoError
  | .error e => some e
  | .ok _ => none

/-- The line `Failed to set DSCP on addr:%s - %s`, written exactly when marking returned a
non-nil error. -/
def failedLog (localAddr : UDPAddr) : Option GoError → List Event
  | some e => [.log (.failedDSCP localAddr e)]
  | none => []

/-- The network name of the remote address's family: `udp4` when the address has a 4-byte
form, `udp6` otherwise. -/
def familyNetwork (remoteAddr : UDPAddr) : String :=
  if (To4 remoteAddr.IP).isSome then "udp4" else "udp6"

/-! ## Shape of the establishers -/

theorem linux_setDSCPOnConn_head (os : OS) (cc : connConnection Linux.osConn) (dscp : Int) :
    ∃ rest, (Linux.setDSCPOnConn os cc dscp).2 = .SyscallConn cc.conn :: rest := by
  unfold Linux.setDSCPOnConn
  split
  · exact ⟨_, rfl⟩
  · split <;> exact ⟨_, rfl⟩

theorem darwin_setDSCPOnConn_head (os : OS) (cc : connConnection Darwin.osConn) (dscp : Int) :
    ∃ rest, (Darwin.setDSCPOnConn os cc dscp).2 = .SyscallConn cc.conn :: rest := by
  unfold Darwin.setDSCPOnConn
  split
  · exact ⟨_, rfl⟩
  · split <;> exact ⟨_, rfl⟩

theorem linux_getUDPConn_error (os : OS) (cc : connConnection Linux.osConn) (connected : Bool)
    (localAddr remoteAddr : UDPAddr) (dscp : Int) (e : GoError)
    (h : os.ListenUDP "udp" localAddr = .error e) :
    Linux.getUDPConn os cc connected localAddr remoteAddr dscp =
      ⟨some e, cc, connected,
        [.log (.listening localAddr dscp), .ListenUDP "udp" localAddr]⟩ := by
  simp [Linux.getUDPConn, h]

theorem linux_getUDPConn_zero (os : OS) (cc : connConnection Linux.osConn) (connected : Bool)
    (localAddr remoteAddr : UDPAddr) (conn : UDPConn)
    (h : os.ListenUDP "udp" localAddr = .ok conn) :
    Linux.getUDPConn os cc connected localAddr remoteAddr 0 =
      ⟨none, { cc with conn := some conn }, connected,
        [.log (.listening localAddr 0), .ListenUDP "udp" localAddr]⟩ := by
  simp [Linux.getUDPConn, h]

theorem linux_getUDPConn_mark (os : OS) (cc : connConnection Linux.osConn) (connected : Bool)
    (localAddr remoteAddr : UDPAddr) (dscp : Int) (conn : UDPConn)
    (h : os.ListenUDP "udp" localAddr = .ok conn) (hd : dscp ≠ 0) :
    Linux.getUDPConn os cc connected localAddr remoteAddr dscp =
      ⟨none, { cc with conn := some conn }, connected,
        [.log (.listening localAddr dscp), .ListenUDP "udp" localAddr]
          ++ (Linux.setDSCPOnConn os { cc with conn := some conn } dscp).2
          ++ failedLog localAddr (Linux.setDSCPOnConn os { cc with conn := some conn } dscp).1⟩ := by
  simp only [Linux.getUDPConn, h, hd, ne_eq, not_false_eq_true, if_true]
  generalize Linux.setDSCPOnConn os { cc with conn := some conn } dscp = r
  rcases r with ⟨_ | e, ev⟩ <;> simp [failedLog]

theorem darwin_getUDPConn_error (os : OS) (cc : connConnection Darwin.osConn)
    (connected : Bool) (localAddr remoteAddr : UDPAddr) (dscp : Int) (e : GoError)
    (h : os.ListenUDP (familyNetwork remoteAddr) localAddr = .error e) :
    Darwin.getUDPConn os cc connected localAddr remoteAddr dscp =
      ⟨some e, cc, connected,
        [.log (.listening localAddr dscp),
          .ListenUDP (familyNetwork remoteAddr) localAddr]⟩ := by
  unfold familyNetwork at h
  by_cases h4 : (To4 remoteAddr.IP).isSome = true
  · rw [if_pos h4] at h
    simp [Darwin.getUDPConn, familyNetwork, h4, h]
  · rw [if_neg h4] at h
    simp [Darwin.getUDPConn, familyNetwork, h4, h]

theorem darwin_getUDPConn_zero (os : OS) (cc : connConnection Darwin.osConn)
    (connected : Bool) (localAddr remoteAddr : UDPAddr) (conn : UDPConn)
    (h : os.ListenUDP (familyNetwork remoteAddr) localAddr = .ok conn) :
    Darwin.getUDPConn os cc connected localAddr remoteAddr 0 =
      ⟨none, { cc with conn := some conn }, connected,
        [.log (.listening localAddr 0),
          .ListenUDP (familyNetwork remoteAddr) localAddr]⟩ := by
  unfold familyNetwork at h
  by_cases h4 : (To4 remoteAddr.IP).isSome = true
  · rw [if_pos h4] at h
    simp [Darwin.getUDPConn, familyNetwork, h4, h]
  · rw [if_neg h4] at h
    simp [Darwin.getUDPConn, familyNetwork, h4, h]

theorem darwin_getUDPConn_mark (os : OS) (cc : connConnection Darwin.osConn)
    (connected : Bool) (localAddr remoteAddr : UDPAddr) (dscp : Int) (conn : UDPConn)
    (h : os.ListenUDP (familyNetwork remoteAddr) localAddr = .ok conn) (hd : dscp ≠ 0) :
    Darwin.getUDPConn os cc connected localAddr remoteAddr dscp =
      ⟨none, { cc with conn := some conn }, connected,
        [.log (.listening localAddr dscp), .ListenUDP (familyNetwork remoteAddr) localAddr]
          ++ (Darwin.setDSCPOnConn os { cc with conn := some conn } dscp).2
          ++ failedLog localAddr
              (Darwin.setDSCPOnConn os { cc with conn := some conn } dscp).1⟩ := by
  unfold familyNetwork at h
  by_cases h4 : (To4 remoteAddr.IP).isSome = true
  · rw [if_pos h4] at h
    simp only [Darwin.getUDPConn, familyNetwork, h4, h, hd, ne_eq, not_false_eq_true, if_true]
    generalize Darwin.setDSCPOnConn os { cc with conn := some conn } dscp = r
    rcases r with ⟨_ | e, ev⟩ <;> simp [failedLog]
  · rw [if_neg h4] at h
    simp only [Darwin.getUDPConn, familyNetwork, if_neg h4, h, hd, ne_eq, not_false_eq_true,
      if_true]
    generalize Darwin.setDSCPOnConn os { cc with conn := some conn } dscp = r
    rcases r with ⟨_ | e, ev⟩ <;> simp [failedLog]

theorem windows_setDSCPOnConn_total (os : OS) (cc : connConnection Windows.osConn)
    (remoteAddr : UDPAddr) (dscp : Int) (o : Windows.osConn) (ho : cc.osconn = some o) :
    ∃ err o1 rest, Windows.setDSCPOnConn os cc remoteAddr dscp =
      some (err, { cc with osconn := some o1 }, .SyscallConn cc.conn :: rest) := by
  unfold Windows.setDSCPOnConn
  simp only [ho]
  split
  · exact ⟨_, o, _, by rw [← ho]⟩
  · split
    · exact ⟨_, _, _, rfl⟩
    · split
      · exact ⟨_, _, _, rfl⟩
      · split
        · exact ⟨_, _, _, rfl⟩
        · split <;> exact ⟨_, _, _, rfl⟩

theorem windows_getUDPConn_error (os : OS) (cc : connConnection Windows.osConn)
    (connected : Bool) (localAddr remoteAddr : UDPAddr) (dscp : Int) (e : GoError)
    (h : os.DialUDP "udp" localAddr remoteAddr = .error e) :
    Windows.getUDPConn os cc connected localAddr remoteAddr dscp =
      some ⟨some e, cc, connected,
        [.log (.dialing localAddr dscp), .DialUDP "udp" localAddr remoteAddr,
          .log (.dialError e)]⟩ := by
  simp [Windows.getUDPConn, h]

theorem windows_getUDPConn_zero (os : OS) (cc : connConnection Windows.osConn)
    (connected : Bool) (localAddr remoteAddr : UDPAddr) (conn : UDPConn)
    (h : os.DialUDP "udp" localAddr remoteAddr = .ok conn) :
    Windows.getUDPConn os cc connected localAddr remoteAddr 0 =
      some ⟨none, ⟨some conn, some ⟨0, 0, 0⟩⟩, true,
        [.log (.dialing localAddr 0), .DialUDP "udp" localAddr remoteAddr]⟩ := by
  simp [Windows.getUDPConn, h]

theorem windows_getUDPConn_mark (os : OS) (cc : connConnection Windows.osConn)
    (connected : Bool) (localAddr remoteAddr : UDPAddr) (dscp : Int) (conn : UDPConn)
    (h : os.DialUDP "udp" localAddr remoteAddr = .ok conn) (hd : dscp ≠ 0) :
    ∃ err cc2 ev,
      Windows.setDSCPOnConn os ⟨some conn, some ⟨0, 0, 0⟩⟩ remoteAddr dscp
        = some (err, cc2, ev) ∧
      Windows.getUDPConn os cc connected localAddr remoteAddr dscp =
        some ⟨none, cc2, true,
          [.log (.dialing localAddr dscp), .DialUDP "udp" localAddr remoteAddr]
            ++ ev ++ failedLog localAddr err⟩ := by
  obtain ⟨err, o1, rest, hm⟩ :=
    windows_setDSCPOnConn_total os ⟨some conn, some ⟨0, 0, 0⟩⟩ remoteAddr dscp ⟨0, 0, 0⟩ rfl
  refine ⟨err, _, _, hm, ?_⟩
  simp only [Windows.getUDPConn, h, hd, ne_eq, not_false_eq_true, if_true, hm]
  cases err <;> simp [failedLog]

/-! ## Establishment: returned error and marking calls -/

/-- C1: on Linux, Darwin and Windows the error that `getUDPConn` returns is exactly the error
of the socket-creation call (`net.ListenUDP`, `net.DialUDP`): `nil` whenever creation succeeds,
whatever `setDSCPOnConn` returns, and the creation error when creation fails. When marking
returns an error it is written to the log and `getUDPConn` still returns `nil`. -/
theorem getUDPConn_err_eq_creationErr (os : OS) (ccL : connConnection Linux.osConn)
    (ccD : connConnection Darwin.osConn) (ccW : connConnection Windows.osConn)
    (connected : Bool) (localAddr remoteAddr : UDPAddr) (dscp : Int) :
    ((Linux.getUDPConn os ccL connected localAddr remoteAddr dscp).err
        = creationErr (os.ListenUDP "udp" localAddr)
      ∧ ∀ conn e, os.ListenUDP "udp" localAddr = .ok conn → dscp ≠ 0 →
          (Linux.setDSCPOnConn os { ccL with conn := some conn } dscp).1 = some e →
          (Linux.getUDPConn os ccL connected localAddr remoteAddr dscp).err = none
          ∧ Event.log (.failedDSCP localAddr e)
              ∈ (Linux.getUDPConn os ccL connected localAddr remoteAddr dscp).events)
    ∧ ((Darwin.getUDPConn os ccD connected localAddr remoteAddr dscp).err
        = creationErr (os.ListenUDP (familyNetwork remoteAddr) localAddr)
      ∧ ∀ conn e, os.ListenUDP (familyNetwork remoteAddr) localAddr = .ok conn → dscp ≠ 0 →
          (Darwin.setDSCPOnConn os { ccD with conn := some conn } dscp).1 = some e →
          (Darwin.getUDPConn os ccD connected localAddr remoteAddr dscp).err = none
          ∧ Event.log (.failedDSCP localAddr e)
              ∈ (Darwin.getUDPConn os ccD connected localAddr remoteAddr dscp).events)
    ∧ ∃ out, Windows.getUDPConn os ccW connected localAddr remoteAddr dscp = some out
      ∧ out.err = creationErr (os.DialUDP "udp" localAddr remoteAddr)
      ∧ ∀ conn e res, os.DialUDP "udp" localAddr remoteAddr = .ok conn → dscp ≠ 0 →
          Windows.setDSCPOnConn os ⟨some conn, some ⟨0, 0, 0⟩⟩ remoteAddr dscp
            = some (some e, res) →
          out.err = none ∧ Event.log (.failedDSCP localAddr e) ∈ out.events := by
  refine ⟨⟨?_, ?_⟩, ⟨?_, ?_⟩, ?_⟩
  · cases h : os.ListenUDP "udp" localAddr with
    | error e => rw [linux_getUDPConn_error os ccL connected localAddr remoteAddr dscp e h]; rfl
    | ok conn =>
      by_cases hd : dscp = 0
      · subst hd
        rw [linux_getUDPConn_zero os ccL connected localAddr remoteAddr conn h]; rfl
      · rw [linux_getUDPConn_mark os ccL connected localAddr remoteAddr dscp conn h hd]; rfl
  · intro conn e h hd hm
    rw [linux_getUDPConn_mark os ccL connected localAddr remoteAddr dscp conn h hd, hm]
    simp [failedLog]
  · cases h : os.ListenUDP (familyNetwork remoteAddr) localAddr with
    | error e => rw [darwin_getUDPConn_error os ccD connected localAddr remoteAddr dscp e h]; rfl
    | ok conn =>
      by_cases hd : dscp = 0
      · subst hd
        rw [darwin_getUDPConn_zero os ccD connected localAddr remoteAddr conn h]; rfl
      · rw [darwin_getUDPConn_mark os ccD connected localAddr remoteAddr dscp conn h hd]; rfl
  · intro conn e h hd hm
    rw [darwin_getUDPConn_mark os ccD connected localAddr remoteAddr dscp conn h hd, hm]
    simp [failedLog]
  · cases h : os.DialUDP "udp" localAddr remoteAddr with
    | error e =>
      refine ⟨_, windows_getUDPConn_error os ccW connected localAddr remoteAddr dscp e h, rfl, ?_⟩
      intro conn e1 res hc
      cases hc
    | ok conn =>
      by_cases hd : dscp = 0
      · subst hd
        refine ⟨_, windows_getUDPConn_zero os ccW connected localAddr remoteAddr conn h, rfl, ?_⟩
        intro conn1 e1 res _ hne
        exact absurd rfl hne
      · obtain ⟨err, cc2, ev, hm, hg⟩ :=
          windows_getUDPConn_mark os ccW connected localAddr remoteAddr dscp conn h hd
        refine ⟨_, hg, rfl, ?_⟩
        intro conn1 e1 res hc _ hm1
        cases hc
        rw [hm] at hm1
        cases hm1
        simp [failedLog]

/-- C2: on Linux, Darwin and Windows `setDSCPOnConn` runs (observed through its first call,
`cc.conn.SyscallConn()`, and through the events it contributes) if and only if socket creation
succeeded and `dscp` is non-zero. With `dscp = 0`, and after a socket-creation failure, no
marking call and no QoS call is made; after a socket-creation failure the endpoint is left
unchanged. -/
theorem marker_runs_iff_created_and_dscp_nonzero (os : OS)
    (ccL : connConnection Linux.osConn) (ccD : connConnection Darwin.osConn)
    (ccW : connConnection Windows.osConn) (connected : Bool) (localAddr remoteAddr : UDPAddr)
    (dscp : Int) :
    (((Linux.getUDPConn os ccL connected localAddr remoteAddr dscp).events.any
          Event.isSyscallConn = true
        ↔ creationErr (os.ListenUDP "udp" localAddr) = none ∧ dscp ≠ 0)
      ∧ (∀ conn, os.ListenUDP "udp" localAddr = .ok conn → dscp ≠ 0 →
          (Linux.getUDPConn os ccL connected localAddr remoteAddr dscp).events
            = [.log (.listening localAddr dscp), .ListenUDP "udp" localAddr]
              ++ (Linux.setDSCPOnConn os { ccL with conn := some conn } dscp).2
              ++ failedLog localAddr
                  (Linux.setDSCPOnConn os { ccL with conn := some conn } dscp).1)
      ∧ (dscp = 0 ∨ creationErr (os.ListenUDP "udp" localAddr) ≠ none →
          (Linux.getUDPConn os ccL connected localAddr remoteAddr dscp).events.filter
              Event.isMarking = []
          ∧ (Linux.getUDPConn os ccL connected localAddr remoteAddr dscp).events.filter
              Event.isQoS = [])
      ∧ (creationErr (os.ListenUDP "udp" localAddr) ≠ none →
          (Linux.getUDPConn os ccL connected localAddr remoteAddr dscp).cc = ccL))
    ∧ (((Darwin.getUDPConn os ccD connected localAddr remoteAddr dscp).events.any
          Event.isSyscallConn = true
        ↔ creationErr (os.ListenUDP (familyNetwork remoteAddr) localAddr) = none ∧ dscp ≠ 0)
      ∧ (∀ conn, os.ListenUDP (familyNetwork remoteAddr) localAddr = .ok conn → dscp ≠ 0 →
          (Darwin.getUDPConn os ccD connected localAddr remoteAddr dscp).events
            = [.log (.listening localAddr dscp),
                .ListenUDP (familyNetwork remoteAddr) localAddr]
              ++ (Darwin.setDSCPOnConn os { ccD with conn := some conn } dscp).2
              ++ failedLog localAddr
                  (Darwin.setDSCPOnConn os { ccD with conn := some conn } dscp).1)
      ∧ (dscp = 0 ∨ creationErr (os.ListenUDP (familyNetwork remoteAddr) localAddr) ≠ none →
          (Darwin.getUDPConn os ccD connected localAddr remoteAddr dscp).events.filter
              Event.isMarking = []
          ∧ (Darwin.getUDPConn os ccD connected localAddr remoteAddr dscp).events.filter
              Event.isQoS = [])
      ∧ (creationErr (os.ListenUDP (familyNetwork remoteAddr) localAddr) ≠ none →
          (Darwin.getUDPConn os ccD connected localAddr remoteAddr dscp).cc = ccD))
    ∧ ∃ out, Windows.getUDPConn os ccW connected localAddr remoteAddr dscp = some out
      ∧ (out.events.any Event.isSyscallConn = true
          ↔ creationErr (os.DialUDP "udp" localAddr remoteAddr) = none ∧ dscp ≠ 0)
      ∧ (∀ conn, os.DialUDP "udp" localAddr remoteAddr = .ok conn → dscp ≠ 0 →
          ∃ err cc2 ev,
            Windows.setDSCPOnConn os ⟨some conn, some ⟨0, 0, 0⟩⟩ remoteAddr dscp
              = some (err, cc2, ev)
            ∧ out.events
              = [.log (.dialing localAddr dscp), .DialUDP "udp" localAddr remoteAddr]
                ++ ev ++ failedLog localAddr err)
      ∧ (dscp = 0 ∨ creationErr (os.DialUDP "udp" localAddr remoteAddr) ≠ none →
          out.events.filter Event.isMarking = [] ∧ out.events.filter Event.isQoS = [])
      ∧ (creationErr (os.DialUDP "udp" localAddr remoteAddr) ≠ none →
          out.cc = ccW ∧ out.connected = connected) := by
  refine ⟨?_, ?_, ?_⟩
  · cases h : os.ListenUDP "udp" localAddr with
    | error e =>
      rw [linux_getUDPConn_error os ccL connected localAddr remoteAddr dscp e h]
      simp [creationErr, Event.isSyscallConn, Event.isMarking, Event.isQoS]
    | ok conn =>
      by_cases hd : dscp = 0
      · subst hd
        rw [linux_getUDPConn_zero os ccL connected localAddr remoteAddr conn h]
        simp [creationErr, Event.isSyscallConn, Event.isMarking, Event.isQoS]
      · obtain ⟨rest, hrest⟩ := linux_setDSCPOnConn_head os { ccL with conn := some conn } dscp
        rw [linux_getUDPConn_mark os ccL connected localAddr remoteAddr dscp conn h hd]
        simp [creationErr, Event.isSyscallConn, hd, hrest]
  · cases h : os.ListenUDP (familyNetwork remoteAddr) localAddr with
    | error e =>
      rw [darwin_getUDPConn_error os ccD connected localAddr remoteAddr dscp e h]
      simp [creationErr, Event.isSyscallConn, Event.isMarking, Event.isQoS]
    | ok conn =>
      by_cases hd : dscp = 0
      · subst hd
        rw [darwin_getUDPConn_zero os ccD connected localAddr remoteAddr conn h]
        simp [creationErr, Event.isSyscallConn, Event.isMarking, Event.isQoS]
      · obtain ⟨rest, hrest⟩ := darwin_setDSCPOnConn_head os { ccD with conn := some conn } dscp
        rw [darwin_getUDPConn_mark os ccD connected localAddr remoteAddr dscp conn h hd]
        simp [creationErr, Event.isSyscallConn, hd, hrest]
  · cases h : os.DialUDP "udp" localAddr remoteAddr with
    | error e =>
      refine ⟨_, windows_getUDPConn_error os ccW connected localAddr remoteAddr dscp e h, ?_⟩
      simp [creationErr, Event.isSyscallConn, Event.isMarking, Event.isQoS]
    | ok conn =>
      by_cases hd : dscp = 0
      · subst hd
        refine ⟨_, windows_getUDPConn_zero os ccW connected localAddr remoteAddr conn h, ?_⟩
        simp [creationErr, Event.isSyscallConn, Event.isMarking, Event.isQoS]
      · obtain ⟨err, cc2, ev, hm, hg⟩ :=
          windows_getUDPConn_mark os ccW connected localAddr remoteAddr dscp conn h hd
        obtain ⟨err1, o1, rest, hrest⟩ :=
          windows_setDSCPOnConn_total os ⟨some conn, some ⟨0, 0, 0⟩⟩ remoteAddr dscp
            ⟨0, 0, 0⟩ rfl
        rw [hm] at hrest
        cases hrest
        refine ⟨_, hg, ?_, ?_, ?_, ?_⟩
        · simp [creationErr, Event.isSyscallConn, hd]
        · intro conn1 hc _
          cases hc
          exact ⟨_, _, _, hm, rfl⟩
        · simp [creationErr, hd]
        · simp [creationErr]

/-! ## POSIX markers -/

theorem linux_setDSCPOnConn_inet4 (os : OS) (cc : connConnection Linux.osConn) (dscp : Int)
    (conn : UDPConn) (port : Nat) (addr : List Nat) (hc : cc.conn = some conn)
    (hraw : os.SyscallConn conn = none) (hctl : os.Control conn = none)
    (hsa : os.Getsockname conn.fd = .ok (.Inet4 port addr)) :
    Linux.setDSCPOnConn os cc dscp =
      (os.SetsockoptInt conn.fd .IPPROTO_IP .IP_TOS (shl dscp 2),
        [.SyscallConn (some conn), .Control conn, .Getsockname conn.fd,
          .SetsockoptInt conn.fd .IPPROTO_IP .IP_TOS (shl dscp 2)]) := by
  simp [Linux.setDSCPOnConn, Linux.controlFn, SyscallConn, hc, hraw, hctl, hsa]

theorem linux_setDSCPOnConn_inet6 (os : OS) (cc : connConnection Linux.osConn) (dscp : Int)
    (conn : UDPConn) (port zone : Nat) (addr : List Nat) (hc : cc.conn = some conn)
    (hraw : os.SyscallConn conn = none) (hctl : os.Control conn = none)
    (hsa : os.Getsockname conn.fd = .ok (.Inet6 port zone addr)) :
    Linux.setDSCPOnConn os cc dscp =
      (os.SetsockoptInt conn.fd .IPPROTO_IPV6 .IPV6_TCLASS (shl dscp 2),
        [.SyscallConn (some conn), .Control conn, .Getsockname conn.fd,
          .SetsockoptInt conn.fd .IPPROTO_IP .IP_TOS (shl dscp 2),
          .SetsockoptInt conn.fd .IPPROTO_IPV6 .IPV6_TCLASS (shl dscp 2)]) := by
  simp [Linux.setDSCPOnConn, Linux.controlFn, SyscallConn, assign, hc, hraw, hctl, hsa]

theorem darwin_setDSCPOnConn_inet4 (os : OS) (cc : connConnection Darwin.osConn) (dscp : Int)
    (conn : UDPConn) (port : Nat) (addr : List Nat) (hc : cc.conn = some conn)
    (hraw : os.SyscallConn conn = none) (hctl : os.Control conn = none)
    (hsa : os.Getsockname conn.fd = .ok (.Inet4 port addr)) :
    Darwin.setDSCPOnConn os cc dscp =
      (os.SetsockoptInt conn.fd .IPPROTO_IP .IP_TOS (shl dscp 2),
        [.SyscallConn (some conn), .Control conn, .Getsockname conn.fd,
          .SetsockoptInt conn.fd .IPPROTO_IP .IP_TOS (shl dscp 2)]) := by
  simp [Darwin.setDSCPOnConn, Darwin.controlFn, SyscallConn, hc, hraw, hctl, hsa]

theorem darwin_setDSCPOnConn_inet6 (os : OS) (cc : connConnection Darwin.osConn) (dscp : Int)
    (conn : UDPConn) (port zone : Nat) (addr : List Nat) (hc : cc.conn = some conn)
    (hraw : os.SyscallConn conn = none) (hctl : os.Control conn = none)
    (hsa : os.Getsockname conn.fd = .ok (.Inet6 port zone addr)) :
    Darwin.setDSCPOnConn os cc dscp =
      (os.SetsockoptInt conn.fd .IPPROTO_IPV6 .IPV6_TCLASS (shl dscp 2),
        [.SyscallConn (some conn), .Control conn, .Getsockname conn.fd,
          .SetsockoptInt conn.fd .IPPROTO_IPV6 .IPV6_TCLASS (shl dscp 2)]) := by
  simp [Darwin.setDSCPOnConn, Darwin.controlFn, SyscallConn, hc, hraw, hctl, hsa]

theorem linux_controlFn_values (os : OS) (fd : Nat) (dscp : Int) :
    ∀ e ∈ (Linux.controlFn os fd dscp).2, ∀ x, e.sockoptValue? = some x → x = shl dscp 2 := by
  unfold Linux.controlFn
  split <;> simp [Event.sockoptValue?]

theorem darwin_controlFn_values (os : OS) (fd : Nat) (dscp : Int) :
    ∀ e ∈ (Darwin.controlFn os fd dscp).2, ∀ x, e.sockoptValue? = some x → x = shl dscp 2 := by
  unfold Darwin.controlFn
  split <;> simp [Event.sockoptValue?]

theorem linux_setDSCPOnConn_values (os : OS) (cc : connConnection Linux.osConn) (dscp : Int) :
    ∀ e ∈ (Linux.setDSCPOnConn os cc dscp).2, ∀ x,
      e.sockoptValue? = some x → x = shl dscp 2 := by
  unfold Linux.setDSCPOnConn
  split
  · simp [Event.sockoptValue?]
  · split
    · simp [Event.sockoptValue?]
    · intro e he x hx
      simp only [List.mem_append, List.mem_cons, List.mem_singleton, List.not_mem_nil,
        or_false] at he
      rcases he with (rfl | rfl) | he
      · simp [Event.sockoptValue?] at hx
      · simp [Event.sockoptValue?] at hx
      · exact linux_controlFn_values os _ dscp e he x hx

theorem darwin_setDSCPOnConn_values (os : OS) (cc : connConnection Darwin.osConn)
    (dscp : Int) :
    ∀ e ∈ (Darwin.setDSCPOnConn os cc dscp).2, ∀ x,
      e.sockoptValue? = some x → x = shl dscp 2 := by
  unfold Darwin.setDSCPOnConn
  split
  · simp [Event.sockoptValue?]
  · split
    · simp [Event.sockoptValue?]
    · intro e he x hx
      simp only [List.mem_append, List.mem_cons, List.mem_singleton, List.not_mem_nil,
        or_false] at he
      rcases he with (rfl | rfl) | he
      · simp [Event.sockoptValue?] at hx
      · simp [Event.sockoptValue?] at hx
      · exact darwin_controlFn_values os _ dscp e he x hx

theorem shl_two_eq (v : Int) (h0 : -2 ^ 61 ≤ v) (h1 : v < 2 ^ 61) : shl v 2 = 4 * v := by
  unfold shl wrapInt
  norm_num at h0 h1 ⊢
  omega

theorem shl_two_emod (v : Int) : shl v 2 % 256 = v % 64 * 4 := by
  unfold shl wrapInt
  norm_num
  omega

/-- C3: for every DSCP value `v` with `0 ≤ v ≤ 63`, every option-set call that the Linux and
the Darwin `setDSCPOnConn` issue carries the value `v << 2 = 4 * v`, which lies in `[0, 252]`,
fits in 8 bits and has its two low bits zero; on an IPv4 socket the one call issued is
`IP_TOS` with that value. -/
theorem tos_eq_four_times_dscp (os : OS) (ccL : connConnection Linux.osConn)
    (ccD : connConnection Darwin.osConn) (v : Int) (h0 : 0 ≤ v) (h63 : v ≤ 63) :
    (∀ e ∈ (Linux.setDSCPOnConn os ccL v).2, ∀ x, e.sockoptValue? = some x → x = 4 * v)
    ∧ (∀ e ∈ (Darwin.setDSCPOnConn os ccD v).2, ∀ x, e.sockoptValue? = some x → x = 4 * v)
    ∧ shl v 2 = 4 * v
    ∧ 0 ≤ shl v 2 ∧ shl v 2 ≤ 252 ∧ shl v 2 < 2 ^ 8 ∧ shl v 2 % 4 = 0
    ∧ (∀ conn port addr, ccL.conn = some conn → os.SyscallConn conn = none →
        os.Control conn = none → os.Getsockname conn.fd = .ok (.Inet4 port addr) →
        (Linux.setDSCPOnConn os ccL v).2.filter Event.isSetsockopt
          = [.SetsockoptInt conn.fd .IPPROTO_IP .IP_TOS (4 * v)])
    ∧ (∀ conn port addr, ccD.conn = some conn → os.SyscallConn conn = none →
        os.Control conn = none → os.Getsockname conn.fd = .ok (.Inet4 port addr) →
        (Darwin.setDSCPOnConn os ccD v).2.filter Event.isSetsockopt
          = [.SetsockoptInt conn.fd .IPPROTO_IP .IP_TOS (4 * v)]) := by
  have hs : shl v 2 = 4 * v := shl_two_eq v (by norm_num; omega) (by norm_num; omega)
  refine ⟨?_, ?_, hs, ?_, ?_, ?_, ?_, ?_, ?_⟩
  · intro e he x hx
    rw [← hs]
    exact linux_setDSCPOnConn_values os ccL v e he x hx
  · intro e he x hx
    rw [← hs]
    exact darwin_setDSCPOnConn_values os ccD v e he x hx
  · rw [hs]; omega
  · rw [hs]; omega
  · rw [hs]; norm_num; omega
  · rw [hs]; omega
  · intro conn port addr hc hraw hctl hsa
    rw [linux_setDSCPOnConn_inet4 os ccL v conn port addr hc hraw hctl hsa, hs]
    simp [Event.isSetsockopt]
  · intro conn port addr hc hraw hctl hsa
    rw [darwin_setDSCPOnConn_inet4 os ccD v conn port addr hc hraw hctl hsa, hs]
    simp [Event.isSetsockopt]

/-- C3, at `dscp = 46` on an IPv4 socket: `IP_TOS` is set to 184. -/
theorem tos_eq_four_times_dscp_witness :
    (Linux.setDSCPOnConn okOS ⟨some ⟨3⟩, none⟩ 46).2.filter Event.isSetsockopt
        = [.SetsockoptInt 3 .IPPROTO_IP .IP_TOS 184]
    ∧ (Darwin.setDSCPOnConn okOS ⟨some ⟨3⟩, none⟩ 46).2.filter Event.isSetsockopt
        = [.SetsockoptInt 3 .IPPROTO_IP .IP_TOS 184]
    ∧ shl 46 2 = 184 :=
  have h := tos_eq_four_times_dscp okOS ⟨some ⟨3⟩, none⟩ ⟨some ⟨3⟩, none⟩ 46
    (by decide) (by decide)
  ⟨h.2.2.2.2.2.2.2.1 ⟨3⟩ 6969 [0, 0, 0, 0] rfl rfl rfl rfl,
    h.2.2.2.2.2.2.2.2 ⟨3⟩ 6969 [0, 0, 0, 0] rfl rfl rfl rfl, h.2.2.1⟩

/-- C4, as stated, fails at `dscp = 64` on an IPv4 socket: the Linux and the Darwin marker
pass 256 to `setsockopt`, which is neither `(64 mod 64) << 2 = 0` nor within `[0, 255]`. -/
theorem tos_byte_truncation_counterexample :
    (Linux.setDSCPOnConn okOS ⟨some ⟨3⟩, none⟩ 64).2.filterMap Event.sockoptValue? = [256]
    ∧ (Darwin.setDSCPOnConn okOS ⟨some ⟨3⟩, none⟩ 64).2.filterMap Event.sockoptValue? = [256]
    ∧ (256 : Int) ≠ 64 % 64 * 4 ∧ ¬ ((256 : Int) ≤ 255) := by
  decide

/-- C4, amended: for every DSCP value `v` outside `[0, 63]`, the value that the Linux and the
Darwin marker pass to every option-set call is `v << 2` computed on the 64-bit `int`, not
reduced to a byte. Its low 8 bits are `(v mod 64) << 2`, and as long as `4 * v` fits in 64 bits
the value is `4 * v` itself, outside `[0, 255]`. -/
theorem tos_is_int_shift (os : OS) (ccL : connConnection Linux.osConn)
    (ccD : connConnection Darwin.osConn) (v : Int) (hv : v < 0 ∨ 63 < v) :
    (∀ e ∈ (Linux.setDSCPOnConn os ccL v).2, ∀ x, e.sockoptValue? = some x → x = shl v 2)
    ∧ (∀ e ∈ (Darwin.setDSCPOnConn os ccD v).2, ∀ x, e.sockoptValue? = some x → x = shl v 2)
    ∧ shl v 2 = wrapInt (v * 4)
    ∧ shl v 2 % 256 = v % 64 * 4
    ∧ (-2 ^ 61 ≤ v → v < 2 ^ 61 → shl v 2 = 4 * v ∧ (shl v 2 < 0 ∨ 255 < shl v 2)) := by
  refine ⟨linux_setDSCPOnConn_values os ccL v, darwin_setDSCPOnConn_values os ccD v, ?_,
    shl_two_emod v, ?_⟩
  · simp [shl]
  · intro h0 h1
    have hs := shl_two_eq v h0 h1
    refine ⟨hs, ?_⟩
    rw [hs]
    omega

/-- C4 amended, at `dscp = 64`: the value passed is 256. -/
theorem tos_is_int_shift_witness :
    shl 64 2 = 4 * 64 ∧ (shl 64 2 < 0 ∨ 255 < shl 64 2) :=
  (tos_is_int_shift okOS ⟨some ⟨3⟩, none⟩ ⟨some ⟨3⟩, none⟩ 64 (Or.inr (by decide))).2.2.2.2
    (by decide) (by decide)

theorem linux_setDSCPOnConn_network (os : OS) (cc : connConnection Linux.osConn)
    (dscp : Int) : (Linux.setDSCPOnConn os cc dscp).2.filterMap Event.network? = [] := by
  unfold Linux.setDSCPOnConn Linux.controlFn
  split
  · rfl
  · split
    · rfl
    · split <;> rfl

theorem darwin_setDSCPOnConn_network (os : OS) (cc : connConnection Darwin.osConn)
    (dscp : Int) : (Darwin.setDSCPOnConn os cc dscp).2.filterMap Event.network? = [] := by
  unfold Darwin.setDSCPOnConn Darwin.controlFn
  split
  · rfl
  · split
    · rfl
    · split <;> rfl

theorem failedLog_network (localAddr : UDPAddr) (err : Option GoError) :
    (failedLog localAddr err).filterMap Event.network? = [] := by
  cases err <;> rfl

/-- C5, as stated, fails on Linux: with the 4-byte remote address `10.0.0.5:50000` the
listening socket is opened with network `udp`, not `udp4`, and with the 16-byte remote address
`[2001:db8::1]:50000` it is again opened with `udp`, not `udp6`. -/
theorem linux_network_counterexample :
    To4 remote50000.IP = some [10, 0, 0, 5]
    ∧ (Linux.getUDPConn okOS ⟨none, none⟩ false local6969 remote50000 46).events.filterMap
        Event.network? = ["udp"]
    ∧ To4 remoteV6.IP = none
    ∧ (Linux.getUDPConn okOS ⟨none, none⟩ false local6969 remoteV6 46).events.filterMap
        Event.network? = ["udp"] := by
  decide

/-- C5, amended: the Darwin `getUDPConn` makes exactly one socket-creation call, with network
`udp4` if the remote IP has a 4-byte form (`To4` is non-nil) and with `udp6` for every other
remote IP, whatever the other arguments, the endpoint and the environment are; the Linux
`getUDPConn` makes exactly one socket-creation call, always with network `udp`, whatever the
remote address is. -/
theorem listen_network (os : OS) (ccL : connConnection Linux.osConn)
    (ccD : connConnection Darwin.osConn) (connected : Bool) (localAddr remoteAddr : UDPAddr)
    (dscp : Int) :
    (Darwin.getUDPConn os ccD connected localAddr remoteAddr dscp).events.filterMap
        Event.network? = [if (To4 remoteAddr.IP).isSome then "udp4" else "udp6"]
    ∧ (Linux.getUDPConn os ccL connected localAddr remoteAddr dscp).events.filterMap
        Event.network? = ["udp"] := by
  constructor
  · change _ = [familyNetwork remoteAddr]
    cases h : os.ListenUDP (familyNetwork remoteAddr) localAddr with
    | error e =>
      rw [darwin_getUDPConn_error os ccD connected localAddr remoteAddr dscp e h]; rfl
    | ok conn =>
      by_cases hd : dscp = 0
      · subst hd
        rw [darwin_getUDPConn_zero os ccD connected localAddr remoteAddr conn h]; rfl
      · rw [darwin_getUDPConn_mark os ccD connected localAddr remoteAddr dscp conn h hd]
        simp [List.filterMap_append, darwin_setDSCPOnConn_network, failedLog_network,
          Event.network?]
  · cases h : os.ListenUDP "udp" localAddr with
    | error e =>
      rw [linux_getUDPConn_error os ccL connected localAddr remoteAddr dscp e h]; rfl
    | ok conn =>
      by_cases hd : dscp = 0
      · subst hd
        rw [linux_getUDPConn_zero os ccL connected localAddr remoteAddr conn h]; rfl
      · rw [linux_getUDPConn_mark os ccL connected localAddr remoteAddr dscp conn h hd]
        simp [List.filterMap_append, linux_setDSCPOnConn_network, failedLog_network,
          Event.network?]

/-- C6: when the marker runs and `getsockname` reports an IPv6 socket address, the Linux
`setDSCPOnConn` issues exactly two option-set calls, `IP_TOS` at level `IPPROTO_IP` and then
`IPV6_TCLASS` at level `IPPROTO_IPV6`, both with `dscp << 2`, and the Darwin one issues exactly
one, `IPV6_TCLASS` at level `IPPROTO_IPV6`. When `getsockname` reports an IPv4 socket address,
both issue exactly one, `IP_TOS` at level `IPPROTO_IP`. -/
theorem setsockopt_calls_by_family (os : OS) (ccL : connConnection Linux.osConn)
    (ccD : connConnection Darwin.osConn) (dscp : Int) (conn : UDPConn) (sa : Sockaddr)
    (hL : ccL.conn = some conn) (hD : ccD.conn = some conn)
    (hraw : os.SyscallConn conn = none) (hctl : os.Control conn = none)
    (hsa : os.Getsockname conn.fd = .ok sa) :
    (∀ port zone addr, sa = .Inet6 port zone addr →
      (Linux.setDSCPOnConn os ccL dscp).2.filter Event.isSetsockopt
        = [.SetsockoptInt conn.fd .IPPROTO_IP .IP_TOS (shl dscp 2),
            .SetsockoptInt conn.fd .IPPROTO_IPV6 .IPV6_TCLASS (shl dscp 2)]
      ∧ (Darwin.setDSCPOnConn os ccD dscp).2.filter Event.isSetsockopt
        = [.SetsockoptInt conn.fd .IPPROTO_IPV6 .IPV6_TCLASS (shl dscp 2)])
    ∧ (∀ port addr, sa = .Inet4 port addr →
      (Linux.setDSCPOnConn os ccL dscp).2.filter Event.isSetsockopt
        = [.SetsockoptInt conn.fd .IPPROTO_IP .IP_TOS (shl dscp 2)]
      ∧ (Darwin.setDSCPOnConn os ccD dscp).2.filter Event.isSetsockopt
        = [.SetsockoptInt conn.fd .IPPROTO_IP .IP_TOS (shl dscp 2)]) := by
  constructor
  · intro port zone addr hs
    subst hs
    rw [linux_setDSCPOnConn_inet6 os ccL dscp conn port zone addr hL hraw hctl hsa,
      darwin_setDSCPOnConn_inet6 os ccD dscp conn port zone addr hD hraw hctl hsa]
    simp [Event.isSetsockopt]
  · intro port addr hs
    subst hs
    rw [linux_setDSCPOnConn_inet4 os ccL dscp conn port addr hL hraw hctl hsa,
      darwin_setDSCPOnConn_inet4 os ccD dscp conn port addr hD hraw hctl hsa]
    simp [Event.isSetsockopt]

/-- C6, on a socket with descriptor 3 that reports an IPv6 name, `dscp = 46`: Linux sets
`IP_TOS` and `IPV6_TCLASS` to 184, Darwin sets `IPV6_TCLASS` to 184. -/
theorem setsockopt_calls_by_family_witness :
    (Linux.setDSCPOnConn okOS6 ⟨some ⟨3⟩, none⟩ 46).2.filter Event.isSetsockopt
        = [.SetsockoptInt 3 .IPPROTO_IP .IP_TOS (shl 46 2),
            .SetsockoptInt 3 .IPPROTO_IPV6 .IPV6_TCLASS (shl 46 2)]
    ∧ (Darwin.setDSCPOnConn okOS6 ⟨some ⟨3⟩, none⟩ 46).2.filter Event.isSetsockopt
        = [.SetsockoptInt 3 .IPPROTO_IPV6 .IPV6_TCLASS (shl 46 2)] :=
  (setsockopt_calls_by_family okOS6 ⟨some ⟨3⟩, none⟩ ⟨some ⟨3⟩, none⟩ 46 ⟨3⟩
    (.Inet6 6969 0 (List.replicate 16 0)) rfl rfl rfl rfl rfl).1 6969 0 (List.replicate 16 0) rfl

/-- C7, on Linux, at an IPv6 socket on which setting `IP_TOS` fails with `EINVAL` and setting
`IPV6_TCLASS` succeeds: `setDSCPOnConn` issues both calls and returns `nil`; the error of the
first call is overwritten by the result of the second. -/
theorem linux_ip_tos_error_lost :
    tosFailOS6.SetsockoptInt 3 .IPPROTO_IP .IP_TOS 184 = some EINVAL
    ∧ tosFailOS6.SetsockoptInt 3 .IPPROTO_IPV6 .IPV6_TCLASS 184 = none
    ∧ Linux.setDSCPOnConn tosFailOS6 ⟨some ⟨3⟩, none⟩ 46
      = (none, [.SyscallConn (some ⟨3⟩), .Control ⟨3⟩, .Getsockname 3,
          .SetsockoptInt 3 .IPPROTO_IP .IP_TOS 184,
          .SetsockoptInt 3 .IPPROTO_IPV6 .IPV6_TCLASS 184])
    ∧ (Linux.getUDPConn tosFailOS6 ⟨none, none⟩ false local6969 remoteV6 46).events.filter
        Event.isSetsockopt
      = [.SetsockoptInt 3 .IPPROTO_IP .IP_TOS 184,
          .SetsockoptInt 3 .IPPROTO_IPV6 .IPV6_TCLASS 184]
    ∧ (Linux.getUDPConn tosFailOS6 ⟨none, none⟩ false local6969 remoteV6 46).events.filter
        (fun e => e matches .log (.failedDSCP _ _)) = [] := by
  decide

/-! ## Windows marker and teardown -/

theorem windows_setDSCPOnConn_rawErr (os : OS) (conn : UDPConn) (o : Windows.osConn)
    (remoteAddr : UDPAddr) (dscp : Int) (e : GoError) (hraw : os.SyscallConn conn = some e) :
    Windows.setDSCPOnConn os ⟨some conn, some o⟩ remoteAddr dscp =
      some (some (.wrapped "failed to get raw connection: " e), ⟨some conn, some o⟩,
        [.SyscallConn (some conn)]) := by
  simp [Windows.setDSCPOnConn, SyscallConn, hraw]

theorem windows_setDSCPOnConn_createFail (os : OS) (conn : UDPConn) (o : Windows.osConn)
    (remoteAddr : UDPAddr) (dscp : Int) (hraw : os.SyscallConn conn = none)
    (hfail : (os.winQoSCreateHandle 1 0 o.qosHandle).ok = false
      ∨ (os.winQoSCreateHandle 1 0 o.qosHandle).err ≠ none) :
    Windows.setDSCPOnConn os ⟨some conn, some o⟩ remoteAddr dscp =
      some (some (errorf "critical error creating Qos handle:"
          (os.winQoSCreateHandle 1 0 o.qosHandle).err),
        ⟨some conn, some { o with qosHandle := (os.winQoSCreateHandle 1 0 o.qosHandle).handle }⟩,
        [.SyscallConn (some conn), .QoSCreateHandle 1 0]) := by
  have hc : (!(os.winQoSCreateHandle 1 0 o.qosHandle).ok
      || (os.winQoSCreateHandle 1 0 o.qosHandle).err.isSome) = true := by
    rcases hfail with h | h
    · simp [h]
    · simp [Option.isSome_iff_ne_none, h]
  simp only [Windows.setDSCPOnConn, SyscallConn, hraw, hc, if_true]

theorem windows_setDSCPOnConn_resolveFail (os : OS) (conn : UDPConn) (o : Windows.osConn)
    (remoteAddr : UDPAddr) (dscp : Int) (e : GoError) (hraw : os.SyscallConn conn = none)
    (hok : (os.winQoSCreateHandle 1 0 o.qosHandle).ok = true)
    (herr : (os.winQoSCreateHandle 1 0 o.qosHandle).err = none)
    (hres : Windows.resolve os remoteAddr = .error e) :
    Windows.setDSCPOnConn os ⟨some conn, some o⟩ remoteAddr dscp =
      some (some e,
        ⟨some conn, some { o with qosHandle := (os.winQoSCreateHandle 1 0 o.qosHandle).handle }⟩,
        [.SyscallConn (some conn), .QoSCreateHandle 1 0]) := by
  simp [Windows.setDSCPOnConn, SyscallConn, hraw, hok, herr, hres]

theorem windows_setDSCPOnConn_controlFail (os : OS) (conn : UDPConn) (o : Windows.osConn)
    (remoteAddr : UDPAddr) (dscp : Int) (sa : Option RawSockaddr) (e : GoError)
    (hraw : os.SyscallConn conn = none)
    (hok : (os.winQoSCreateHandle 1 0 o.qosHandle).ok = true)
    (herr : (os.winQoSCreateHandle 1 0 o.qosHandle).err = none)
    (hres : Windows.resolve os remoteAddr = .ok sa) (hctl : os.Control conn = some e) :
    Windows.setDSCPOnConn os ⟨some conn, some o⟩ remoteAddr dscp =
      some (some (.wrapped "failed to apply QoS at callback:" e),
        ⟨some conn, some { o with qosHandle := (os.winQoSCreateHandle 1 0 o.qosHandle).handle }⟩,
        [.SyscallConn (some conn), .QoSCreateHandle 1 0, .Control conn]) := by
  simp [Windows.setDSCPOnConn, SyscallConn, hraw, hok, herr, hres, hctl]

theorem windows_setDSCPOnConn_run (os : OS) (conn : UDPConn) (o : Windows.osConn)
    (remoteAddr : UDPAddr) (dscp : Int) (sa : Option RawSockaddr)
    (hraw : os.SyscallConn conn = none)
    (hok : (os.winQoSCreateHandle 1 0 o.qosHandle).ok = true)
    (herr : (os.winQoSCreateHandle 1 0 o.qosHandle).err = none)
    (hres : Windows.resolve os remoteAddr = .ok sa) (hctl : os.Control conn = none) :
    Windows.setDSCPOnConn os ⟨some conn, some o⟩ remoteAddr dscp =
      some ((Windows.controlFn os
            { o with qosHandle := (os.winQoSCreateHandle 1 0 o.qosHandle).handle }
            remoteAddr sa (toUint32 dscp) conn.fd).err.map
          (GoError.wrapped "failed to apply socket control: "),
        ⟨some conn, some (Windows.controlFn os
            { o with qosHandle := (os.winQoSCreateHandle 1 0 o.qosHandle).handle }
            remoteAddr sa (toUint32 dscp) conn.fd).osconn⟩,
        [.SyscallConn (some conn), .QoSCreateHandle 1 0, .Control conn]
          ++ (Windows.controlFn os
            { o with qosHandle := (os.winQoSCreateHandle 1 0 o.qosHandle).handle }
            remoteAddr sa (toUint32 dscp) conn.fd).events) := by
  simp only [Windows.setDSCPOnConn, SyscallConn, hraw, hok, herr, hres, hctl]
  generalize Windows.controlFn os _ remoteAddr sa (toUint32 dscp) conn.fd = m
  rcases m with ⟨_ | e, o2, ev⟩ <;> simp

theorem windows_controlFn_osconn (os : OS) (o : Windows.osConn) (remoteAddr : UDPAddr)
    (sa : Option RawSockaddr) (v fd : Nat) :
    (Windows.controlFn os o remoteAddr sa v fd).osconn =
      ⟨o.qosHandle, fd,
        (os.winQoSAddSocketToFlow o.qosHandle fd sa Windows.QOSTrafficTypeExcellentEffort
          Windows.QOS_NON_ADAPTIVE_FLOW o.flowId).flowId⟩ := by
  unfold Windows.controlFn
  simp only
  split
  · rfl
  · split <;> rfl

/-- C8: on Windows, an establishment with `dscp ≠ 0` in which create-handle (yielding the
non-zero handle `h`), address resolution, add-socket-to-flow (yielding flow `fid`) and set-flow
all succeed, followed by one `unsetDSCPValue`, makes exactly the QoS calls create-handle,
add-socket-to-flow, set-flow, remove-socket-from-flow, close-handle, once each and in this
order; remove receives `h`, the socket handle used in add and `fid`, close receives `h`. -/
theorem qos_call_sequence (os : OS) (cc : connConnection Windows.osConn) (connected : Bool)
    (localAddr remoteAddr : UDPAddr) (dscp : Int) (conn : UDPConn) (h fid : Nat)
    (sa : Option RawSockaddr) (addErr setErr : Option GoError)
    (hdial : os.DialUDP "udp" localAddr remoteAddr = .ok conn) (hd : dscp ≠ 0)
    (hraw : os.SyscallConn conn = none)
    (hcreate : os.winQoSCreateHandle 1 0 0 = ⟨true, none, h⟩) (hh : h ≠ 0)
    (hres : Windows.resolve os remoteAddr = .ok sa) (hctl : os.Control conn = none)
    (hadd : os.winQoSAddSocketToFlow h conn.fd sa Windows.QOSTrafficTypeExcellentEffort
      Windows.QOS_NON_ADAPTIVE_FLOW 0 = ⟨true, addErr, fid⟩)
    (hset : os.winQoSSetFlow h fid Windows.QOSSetOutgoingDSCPValue 4 (toUint32 dscp) 0
      = (true, setErr)) :
    ∃ out, Windows.getUDPConn os cc connected localAddr remoteAddr dscp = some out
      ∧ out.err = none
      ∧ out.cc.osconn = some ⟨h, conn.fd, fid⟩
      ∧ (out.events ++ (Windows.unsetDSCPValue out.cc).2).filter Event.isQoS
        = [.QoSCreateHandle 1 0,
            .QoSAddSocketToFlow h conn.fd sa Windows.QOSTrafficTypeExcellentEffort
              Windows.QOS_NON_ADAPTIVE_FLOW,
            .QoSSetFlow h fid Windows.QOSSetOutgoingDSCPValue 4 (toUint32 dscp) 0,
            .QoSRemoveSocketFromFlow h conn.fd fid 0,
            .QoSCloseHandle h] := by
  obtain ⟨err, cc2, ev, hm, hg⟩ :=
    windows_getUDPConn_mark os cc connected localAddr remoteAddr dscp conn hdial hd
  have hc1 : (os.winQoSCreateHandle 1 0 (⟨0, 0, 0⟩ : Windows.osConn).qosHandle).ok = true := by
    show (os.winQoSCreateHandle 1 0 0).ok = true
    rw [hcreate]
  have hc2 : (os.winQoSCreateHandle 1 0 (⟨0, 0, 0⟩ : Windows.osConn).qosHandle).err = none := by
    show (os.winQoSCreateHandle 1 0 0).err = none
    rw [hcreate]
  rw [windows_setDSCPOnConn_run os conn ⟨0, 0, 0⟩ remoteAddr dscp sa hraw hc1 hc2 hres hctl]
    at hm
  simp only [hcreate, Windows.controlFn, hadd, hset, Bool.not_true, Bool.false_eq_true,
    if_false, Option.map_none', Option.some.injEq, Prod.mk.injEq] at hm
  obtain ⟨rfl, rfl, rfl⟩ := hm
  refine ⟨_, hg, rfl, rfl, ?_⟩
  simp [Windows.unsetDSCPValue, hh, failedLog, Event.isQoS]

/-- C8, in the environment where the QoS subsystem hands out handle 77 and flow 5 for the
socket with descriptor 3: the calls are create, add, set, remove, close. -/
theorem qos_call_sequence_witness :
    ∃ out, Windows.getUDPConn okOS ⟨none, none⟩ false local6969 remote50000 46 = some out
      ∧ out.err = none
      ∧ out.cc.osconn = some ⟨77, 3, 5⟩
      ∧ (out.events ++ (Windows.unsetDSCPValue out.cc).2).filter Event.isQoS
        = [.QoSCreateHandle 1 0,
            .QoSAddSocketToFlow 77 3 (some rawRemote50000) 2 2,
            .QoSSetFlow 77 5 2 4 (toUint32 46) 0,
            .QoSRemoveSocketFromFlow 77 3 5 0,
            .QoSCloseHandle 77] :=
  qos_call_sequence okOS ⟨none, none⟩ false local6969 remote50000 46 ⟨3⟩ 77 5
    (some rawRemote50000) none none rfl (by decide) rfl rfl (by decide) rfl rfl rfl rfl

/-- C9, as stated, fails: after an establishment with `dscp = 0` the extension is allocated
with all fields zero and no QoS call was made; after a failed create-handle it is allocated as
well; and when add-socket-to-flow fails after a successful create-handle, the extension holds
the QoS handle 77 although no flow was added. -/
theorem osconn_invariant_counterexample :
    (Windows.getUDPConn okOS ⟨none, none⟩ false local6969 remote50000 0).map
        (fun out => (out.cc.osconn, out.events.filter Event.isQoS))
      = some (some ⟨0, 0, 0⟩, [])
    ∧ (createFailOS.winQoSCreateHandle 1 0 0).ok = false
    ∧ (Windows.getUDPConn createFailOS ⟨none, none⟩ false local6969 remote50000 46).map
        (fun out => out.cc.osconn)
      = some (some ⟨0, 0, 0⟩)
    ∧ (addFailOS.winQoSAddSocketToFlow 77 3 (some rawRemote50000) 2 2 0).ok = false
    ∧ (Windows.getUDPConn addFailOS ⟨none, none⟩ false local6969 remote50000 46).map
        (fun out => (out.cc.osconn, out.events.filter Event.isQoS))
      = some (some ⟨77, 3, 0⟩,
          [.QoSCreateHandle 1 0, .QoSAddSocketToFlow 77 3 (some rawRemote50000) 2 2]) := by
  decide

/-- C9, amended: on Windows `getUDPConn` always returns, and afterwards the extension
`cc.osconn` is as follows. After a socket-creation failure it is what it was before. After a
successful socket creation it is always allocated: all fields zero when `dscp = 0` or when the
raw connection cannot be obtained; `qosHandle` as create-handle left it and the two other fields
zero when create-handle fails, when address resolution fails or when `Control` fails; and
`qosHandle` from create-handle, `socketHandle` the socket's descriptor and `flowId` as
add-socket-to-flow left it once add-socket-to-flow has been called, which is the fully
populated state whenever that call succeeded. -/
theorem osconn_after_getUDPConn (os : OS) (cc : connConnection Windows.osConn)
    (connected : Bool) (localAddr remoteAddr : UDPAddr) (dscp : Int) :
    ∃ out, Windows.getUDPConn os cc connected localAddr remoteAddr dscp = some out
      ∧ (∀ e, os.DialUDP "udp" localAddr remoteAddr = .error e → out.cc = cc)
      ∧ ∀ conn, os.DialUDP "udp" localAddr remoteAddr = .ok conn →
        (∃ o, out.cc.osconn = some o)
        ∧ (dscp = 0 → out.cc.osconn = some ⟨0, 0, 0⟩)
        ∧ (dscp ≠ 0 → ∀ e, os.SyscallConn conn = some e → out.cc.osconn = some ⟨0, 0, 0⟩)
        ∧ (dscp ≠ 0 → os.SyscallConn conn = none →
            ((os.winQoSCreateHandle 1 0 0).ok = false ∨ (os.winQoSCreateHandle 1 0 0).err ≠ none →
              out.cc.osconn = some ⟨(os.winQoSCreateHandle 1 0 0).handle, 0, 0⟩)
            ∧ ((os.winQoSCreateHandle 1 0 0).ok = true → (os.winQoSCreateHandle 1 0 0).err = none →
              (∀ e, Windows.resolve os remoteAddr = .error e →
                out.cc.osconn = some ⟨(os.winQoSCreateHandle 1 0 0).handle, 0, 0⟩)
              ∧ ∀ sa, Windows.resolve os remoteAddr = .ok sa →
                (∀ e, os.Control conn = some e →
                  out.cc.osconn = some ⟨(os.winQoSCreateHandle 1 0 0).handle, 0, 0⟩)
                ∧ (os.Control conn = none →
                  out.cc.osconn = some ⟨(os.winQoSCreateHandle 1 0 0).handle, conn.fd,
                    (os.winQoSAddSocketToFlow (os.winQoSCreateHandle 1 0 0).handle conn.fd sa
                      Windows.QOSTrafficTypeExcellentEffort Windows.QOS_NON_ADAPTIVE_FLOW
                      0).flowId⟩))) := by
  cases hdial : os.DialUDP "udp" localAddr remoteAddr with
  | error e =>
    refine ⟨_, windows_getUDPConn_error os cc connected localAddr remoteAddr dscp e hdial,
      fun _ _ => rfl, ?_⟩
    intro conn hc
    cases hc
  | ok conn =>
    by_cases hd : dscp = 0
    · subst hd
      refine ⟨_, windows_getUDPConn_zero os cc connected localAddr remoteAddr conn hdial, ?_, ?_⟩
      · intro e he
        cases he
      · intro conn1 hc
        cases hc
        exact ⟨⟨_, rfl⟩, fun _ => rfl, fun h => absurd rfl h, fun h => absurd rfl h⟩
    · obtain ⟨err, cc2, ev, hm, hg⟩ :=
        windows_getUDPConn_mark os cc connected localAddr remoteAddr dscp conn hdial hd
      obtain ⟨err1, o1, rest, htot⟩ :=
        windows_setDSCPOnConn_total os ⟨some conn, some ⟨0, 0, 0⟩⟩ remoteAddr dscp
          ⟨0, 0, 0⟩ rfl
      refine ⟨_, hg, ?_, ?_⟩
      · intro e he
        cases he
      · intro conn1 hc
        cases hc
        refine ⟨?_, fun h => absurd h hd, ?_, ?_⟩
        · rw [htot] at hm
          cases hm
          exact ⟨_, rfl⟩
        · intro _ e hraw
          rw [windows_setDSCPOnConn_rawErr os conn ⟨0, 0, 0⟩ remoteAddr dscp e hraw] at hm
          cases hm
          rfl
        · intro _ hraw
          refine ⟨?_, ?_⟩
          · intro hfail
            rw [windows_setDSCPOnConn_createFail os conn ⟨0, 0, 0⟩ remoteAddr dscp hraw hfail]
              at hm
            cases hm
            rfl
          · intro hok herr
            refine ⟨?_, ?_⟩
            · intro e hres
              rw [windows_setDSCPOnConn_resolveFail os conn ⟨0, 0, 0⟩ remoteAddr dscp e hraw
                hok herr hres] at hm
              cases hm
              rfl
            · intro sa hres
              refine ⟨?_, ?_⟩
              · intro e hctl
                rw [windows_setDSCPOnConn_controlFail os conn ⟨0, 0, 0⟩ remoteAddr dscp sa e
                  hraw hok herr hres hctl] at hm
                cases hm
                rfl
              · intro hctl
                rw [windows_setDSCPOnConn_run os conn ⟨0, 0, 0⟩ remoteAddr dscp sa hraw hok
                  herr hres hctl] at hm
                cases hm
                simp [windows_controlFn_osconn]

/-- C9 amended, at `dscp = 0`: the extension is allocated with all fields zero. -/
theorem osconn_after_getUDPConn_witness :
    ∃ out, Windows.getUDPConn okOS ⟨none, none⟩ false local6969 remote50000 0 = some out
      ∧ out.cc.osconn = some ⟨0, 0, 0⟩ :=
  match osconn_after_getUDPConn okOS ⟨none, none⟩ false local6969 remote50000 0 with
  | ⟨out, hout, _, h⟩ => ⟨out, hout, (h ⟨3⟩ rfl).2.1 rfl⟩

theorem windows_setDSCPOnConn_handle (os : OS) (conn : UDPConn) (remoteAddr : UDPAddr)
    (dscp : Int) (hraw : os.SyscallConn conn = none) :
    ∃ err o ev, Windows.setDSCPOnConn os ⟨some conn, some ⟨0, 0, 0⟩⟩ remoteAddr dscp
        = some (err, ⟨some conn, some o⟩, ev)
      ∧ o.qosHandle = (os.winQoSCreateHandle 1 0 0).handle
      ∧ ev.filter Event.isQoS ≠ [] := by
  by_cases hfail : (os.winQoSCreateHandle 1 0 0).ok = false
      ∨ (os.winQoSCreateHandle 1 0 0).err ≠ none
  · exact ⟨_, _, _,
      windows_setDSCPOnConn_createFail os conn ⟨0, 0, 0⟩ remoteAddr dscp hraw hfail, rfl,
      by simp [Event.isQoS]⟩
  · have hok : (os.winQoSCreateHandle 1 0 0).ok = true := by
      by_contra hne
      exact hfail (Or.inl (by simpa using hne))
    have herr : (os.winQoSCreateHandle 1 0 0).err = none := by
      by_contra hne
      exact hfail (Or.inr hne)
    cases hres : Windows.resolve os remoteAddr with
    | error e =>
      exact ⟨_, _, _,
        windows_setDSCPOnConn_resolveFail os conn ⟨0, 0, 0⟩ remoteAddr dscp e hraw hok herr
          hres, rfl, by simp [Event.isQoS]⟩
    | ok sa =>
      cases hctl : os.Control conn with
      | some e =>
        exact ⟨_, _, _,
          windows_setDSCPOnConn_controlFail os conn ⟨0, 0, 0⟩ remoteAddr dscp sa e hraw hok
            herr hres hctl, rfl, by simp [Event.isQoS]⟩
      | none =>
        refine ⟨_, _, _,
          windows_setDSCPOnConn_run os conn ⟨0, 0, 0⟩ remoteAddr dscp sa hraw hok herr hres
            hctl, ?_, by simp [Event.isQoS]⟩
        rw [windows_controlFn_osconn]

/-- C10: on Windows `unsetDSCPValue` always returns `nil`. It makes QoS calls if and only if
the extension exists and its `qosHandle` is non-zero, and then exactly two:
remove-socket-from-flow with the stored handle, socket handle and flow identifier, followed by
close-handle on the stored handle. After an establishment in which create-handle stored the
non-zero handle `h`, whatever happened to marking afterwards, teardown makes these two calls
on `h`; after an establishment with `dscp = 0`, or one in which create-handle left the handle
zero, it makes none. -/
theorem unsetDSCPValue_calls (os : OS) (cc : connConnection Windows.osConn)
    (connected : Bool) (localAddr remoteAddr : UDPAddr) (dscp : Int) (conn : UDPConn)
    (hdial : os.DialUDP "udp" localAddr remoteAddr = .ok conn) :
    (Windows.unsetDSCPValue cc).1 = none
    ∧ ((Windows.unsetDSCPValue cc).2 ≠ [] ↔ ∃ o, cc.osconn = some o ∧ o.qosHandle ≠ 0)
    ∧ (∀ o, cc.osconn = some o → o.qosHandle ≠ 0 →
        (Windows.unsetDSCPValue cc).2
          = [.QoSRemoveSocketFromFlow o.qosHandle o.socketHandle o.flowId 0,
              .QoSCloseHandle o.qosHandle])
    ∧ (cc.osconn = none ∨ (∃ o, cc.osconn = some o ∧ o.qosHandle = 0) →
        (Windows.unsetDSCPValue cc).2 = [])
    ∧ ∃ out, Windows.getUDPConn os cc connected localAddr remoteAddr dscp = some out
      ∧ (Windows.unsetDSCPValue out.cc).1 = none
      ∧ (dscp = 0 → (Windows.unsetDSCPValue out.cc).2 = [])
      ∧ (dscp ≠ 0 → os.SyscallConn conn = none →
          ((os.winQoSCreateHandle 1 0 0).handle = 0 → (Windows.unsetDSCPValue out.cc).2 = [])
          ∧ ((os.winQoSCreateHandle 1 0 0).handle ≠ 0 →
              out.events.filter Event.isQoS ≠ []
              ∧ ∃ o, out.cc.osconn = some o
                ∧ o.qosHandle = (os.winQoSCreateHandle 1 0 0).handle
                ∧ (Windows.unsetDSCPValue out.cc).2
                  = [.QoSRemoveSocketFromFlow (os.winQoSCreateHandle 1 0 0).handle
                        o.socketHandle o.flowId 0,
                      .QoSCloseHandle (os.winQoSCreateHandle 1 0 0).handle])) := by
  refine ⟨?_, ?_, ?_, ?_, ?_⟩
  · unfold Windows.unsetDSCPValue
    split
    · rfl
    · split <;> rfl
  · unfold Windows.unsetDSCPValue
    split
    · next hnone => simp [hnone]
    · next o hsome =>
      by_cases h0 : o.qosHandle = 0
      · simp [hsome, h0]
      · simp [hsome, h0]
  · intro o ho hne
    simp [Windows.unsetDSCPValue, ho, hne]
  · rintro (hnone | ⟨o, ho, h0⟩)
    · simp [Windows.unsetDSCPValue, hnone]
    · simp [Windows.unsetDSCPValue, ho, h0]
  · by_cases hd : dscp = 0
    · subst hd
      refine ⟨_, windows_getUDPConn_zero os cc connected localAddr remoteAddr conn hdial, rfl,
        fun _ => rfl, fun h => absurd rfl h⟩
    · obtain ⟨err, cc2, ev, hm, hg⟩ :=
        windows_getUDPConn_mark os cc connected localAddr remoteAddr dscp conn hdial hd
      refine ⟨_, hg, ?_, fun h => absurd h hd, ?_⟩
      · show (Windows.unsetDSCPValue cc2).1 = none
        unfold Windows.unsetDSCPValue
        split
        · rfl
        · split <;> rfl
      · intro _ hraw
        obtain ⟨err1, o, ev1, hm1, hq, hev⟩ :=
          windows_setDSCPOnConn_handle os conn remoteAddr dscp hraw
        rw [hm] at hm1
        cases hm1
        refine ⟨?_, ?_⟩
        · intro h0
          simp [Windows.unsetDSCPValue, hq, h0]
        · intro hne
          refine ⟨?_, o, rfl, hq, ?_⟩
          · intro hnil
            apply hev
            have h2 : List.filter Event.isQoS
                ([.log (.dialing localAddr dscp), .DialUDP "udp" localAddr remoteAddr]
                  ++ ev ++ failedLog localAddr err) = [] := hnil
            rw [List.filter_append, List.filter_append] at h2
            simp only [List.append_eq_nil] at h2
            exact h2.1.2
          · simp [Windows.unsetDSCPValue, hq, hne]

/-- C10, after an establishment in which the handle 77 was created and add-socket-to-flow
failed: teardown removes the socket from the flow and closes handle 77. -/
theorem unsetDSCPValue_calls_witness :
    ∃ out, Windows.getUDPConn addFailOS ⟨none, none⟩ false local6969 remote50000 46 = some out
      ∧ (Windows.unsetDSCPValue out.cc).2
        = [.QoSRemoveSocketFromFlow 77 3 0 0, .QoSCloseHandle 77] :=
  match (unsetDSCPValue_calls addFailOS ⟨none, none⟩ false local6969 remote50000 46 ⟨3⟩
    rfl).2.2.2.2 with
  | ⟨out, hout, _, _, h⟩ =>
    ⟨out, hout, by
      have hcc : (Windows.getUDPConn addFailOS ⟨none, none⟩ false local6969 remote50000 46).map
          (fun x => x.cc) = some ⟨some ⟨3⟩, some ⟨77, 3, 0⟩⟩ := by decide
      rw [hout] at hcc
      simp only [Option.map_some', Option.some.injEq] at hcc
      obtain ⟨_, o, ho, _, hcalls⟩ := (h (by decide) rfl).2 (by decide)
      rw [hcc] at ho hcalls
      cases ho
      rw [hcc]
      exact hcalls⟩

end Tftp
